import Mathlib

/-!
Verification of the raster window extractor in `src/utils/raster_utils.py`.

The Python module works on floating-point numbers; we embed it over `ℚ`.
Python's `int()` truncates toward zero, but every value it is applied to in
this module has already been clamped below by `0`, so truncation coincides
with `Int.floor`, which is how we model it.

A NetCDF dataset is modelled by its `data_vars` mapping from variable names
to 2-D arrays (row-major, rows indexed by `y` from the north, columns by
`x` from the west), and `xarray`'s `isel` with integer slices is modelled
by `List.drop`/`List.take`, which share Python's clamping slice semantics.

A shapely geometry is modelled by what the module reads from it: its
bounding box (`minx`, `miny`, `maxx`, `maxy`) and the coordinate sequence
it exposes (the exterior ring of a polygon, the plain coordinate sequence
of a line or point, or neither).
-/

namespace RasterUtils

/-- CONUS grid parameter `CONUS_LON_MIN` from `raster_utils.py`. -/
def CONUS_LON_MIN : ℚ := -125

/-- CONUS grid parameter `CONUS_LON_MAX` from `raster_utils.py`. -/
def CONUS_LON_MAX : ℚ := -66

/-- CONUS grid parameter `CONUS_LAT_MIN` from `raster_utils.py`. -/
def CONUS_LAT_MIN : ℚ := 24

/-- CONUS grid parameter `CONUS_LAT_MAX` from `raster_utils.py`. -/
def CONUS_LAT_MAX : ℚ := 50

/-- CONUS grid parameter `GRID_WIDTH` from `raster_utils.py`. -/
def GRID_WIDTH : ℕ := 6435

/-- CONUS grid parameter `GRID_HEIGHT` from `raster_utils.py`. -/
def GRID_HEIGHT : ℕ := 2767

/-- `lonlat_to_pixel(lon, lat)`: convert lon/lat to pixel coordinates. -/
def lonlat_to_pixel (lon lat : ℚ) : ℚ × ℚ :=
  ((lon - CONUS_LON_MIN) / (CONUS_LON_MAX - CONUS_LON_MIN) * GRID_WIDTH,
   (CONUS_LAT_MAX - lat) / (CONUS_LAT_MAX - CONUS_LAT_MIN) * GRID_HEIGHT)

/-- `pixel_to_lonlat(px, py)`: convert pixel coordinates to lon/lat. -/
def pixel_to_lonlat (px py : ℚ) : ℚ × ℚ :=
  (CONUS_LON_MIN + px / GRID_WIDTH * (CONUS_LON_MAX - CONUS_LON_MIN),
   CONUS_LAT_MAX - py / GRID_HEIGHT * (CONUS_LAT_MAX - CONUS_LAT_MIN))

/-- The coordinate sequence a shapely geometry exposes: a polygon has an
`exterior` ring, a line or point has a plain `coords` sequence, and any
other object has neither. -/
inductive CoordSeq where
  | exterior (ring : List (ℚ × ℚ))
  | simple (cs : List (ℚ × ℚ))
  | unsupported
deriving DecidableEq

/-- What `extract_raster_for_geometry` and `geometry_to_pixel_coords` read
from a shapely geometry: its bounding box `(minx, miny, maxx, maxy)` and
the coordinate sequence it exposes. -/
structure Geometry where
  seq : CoordSeq
  minx : ℚ
  miny : ℚ
  maxx : ℚ
  maxy : ℚ
deriving DecidableEq

/-- The `geometry` argument of `extract_raster_for_geometry` is either a
bare geometry or a GeoDataFrame-like wrapper carrying one geometry (the
source probes `hasattr(geometry, 'geometry')` and takes `.iloc[0]`). -/
inductive GeomInput where
  | plain (g : Geometry)
  | frame (g : Geometry)
deriving DecidableEq

/-- The unwrapping performed at the top of `extract_raster_for_geometry`. -/
def unwrapGeom : GeomInput → Geometry
  | .plain g => g
  | .frame g => g

/-- A NetCDF dataset, modelled by its `data_vars` mapping from variable
names to 2-D arrays. -/
structure Dataset where
  data_vars : String → Option (List (List ℚ))

/-- `int(max(0, min(v, hi)))` from the clamping step: the clamped value is
nonnegative, so Python's truncating `int()` is the floor. -/
def clampIndex (v hi : ℚ) : ℤ := ⌊max 0 (min v hi)⌋

/-- The pixel window computed by `extract_raster_for_geometry` before the
degeneracy test: buffer the bounding box by `buffer_km / 111` degrees, map
the northwest corner `(lon_min, lat_max)` and the southeast corner
`(lon_max, lat_min)` to pixels, and clamp all four indices into
`[0, GRID_WIDTH - 1]` and `[0, GRID_HEIGHT - 1]`. -/
def pixelWindow (geometry : GeomInput) (buffer_km : ℚ) : ℤ × ℤ × ℤ × ℤ :=
  let geom := unwrapGeom geometry
  let buffer_deg := buffer_km / 111
  let lon_min := geom.minx - buffer_deg
  let lon_max := geom.maxx + buffer_deg
  let lat_min := geom.miny - buffer_deg
  let lat_max := geom.maxy + buffer_deg
  let pixNW := lonlat_to_pixel lon_min lat_max
  let pixSE := lonlat_to_pixel lon_max lat_min
  let x_min := clampIndex pixNW.1 ((GRID_WIDTH - 1 : ℕ) : ℚ)
  let x_max := clampIndex pixSE.1 ((GRID_WIDTH - 1 : ℕ) : ℚ)
  let y_min := clampIndex pixNW.2 ((GRID_HEIGHT - 1 : ℕ) : ℚ)
  let y_max := clampIndex pixSE.2 ((GRID_HEIGHT - 1 : ℕ) : ℚ)
  (x_min, x_max, y_min, y_max)

/-- `ds[variable_name].isel(x=slice(x_min, x_max), y=slice(y_min, y_max)).values`
on a row-major (y, x) array, with Python's clamping slice semantics. -/
def iselSlice (arr : List (List ℚ)) (x_min x_max y_min y_max : ℤ) :
    List (List ℚ) :=
  ((arr.drop y_min.toNat).take (y_max - y_min).toNat).map
    (fun row => (row.drop x_min.toNat).take (x_max - x_min).toNat)

/-- `extract_raster_for_geometry(ds, variable_name, geometry, buffer_km)`:
the result triple `(data, pixel bounds, geometry)`, with `None` as `none`. -/
def extract_raster_for_geometry (ds : Dataset) (variable_name : String)
    (geometry : GeomInput) (buffer_km : ℚ) :
    Option (List (List ℚ)) × Option (ℤ × ℤ × ℤ × ℤ) × Option Geometry :=
  let geom := unwrapGeom geometry
  let w := pixelWindow geometry buffer_km
  if w.2.1 ≤ w.1 ∨ w.2.2.2 ≤ w.2.2.1 then (none, none, none)
  else
    match ds.data_vars variable_name with
    | some arr =>
        (some (iselSlice arr w.1 w.2.1 w.2.2.1 w.2.2.2),
         some (w.1, w.2.1, w.2.2.1, w.2.2.2), some geom)
    | none => (none, none, none)

/-- The coordinate sequence read by `geometry_to_pixel_coords`:
`geometry.exterior.coords` for a polygon, `geometry.coords` for a line or
point, and `none` when neither attribute exists. -/
def coordsOfGeometry (geometry : Geometry) : Option (List (ℚ × ℚ)) :=
  match geometry.seq with
  | .exterior ring => some ring
  | .simple cs => some cs
  | .unsupported => none

/-- `geometry_to_pixel_coords(geometry, x_offset, y_offset)`: the loop that
appends `lonlat_to_pixel(lon, lat) - (x_offset, y_offset)` for each vertex,
or the empty list when the geometry exposes no coordinate sequence. -/
def geometry_to_pixel_coords (geometry : Geometry) (x_offset y_offset : ℚ) :
    List (ℚ × ℚ) :=
  match coordsOfGeometry geometry with
  | none => []
  | some coords =>
      coords.foldl
        (fun pixel_coords c =>
          let p := lonlat_to_pixel c.1 c.2
          pixel_coords ++ [(p.1 - x_offset, p.2 - y_offset)]) []

/-- The vertex sequence named by the specification: the exterior ring of a
polygon, the coordinate sequence of a line or point, empty otherwise. -/
def vertexSeq (g : Geometry) : List (ℚ × ℚ) :=
  match g.seq with
  | .exterior ring => ring
  | .simple cs => cs
  | .unsupported => []

/-- The 1°×1° query box of the spec's scenario: lon in [-112.5, -111.5],
lat in [33.5, 34.0]. -/
def demoGeom : Geometry :=
  { seq := .exterior [(-112.5, 33.5), (-111.5, 33.5), (-111.5, 34),
      (-112.5, 34), (-112.5, 33.5)],
    minx := -112.5, miny := 33.5, maxx := -111.5, maxy := 34 }

/-- A small 2-D array standing for a raster variable. -/
def demoArr : List (List ℚ) := [[1, 2], [3, 4]]

/-- A dataset holding the single variable `LCZ_2020`. -/
def demoDS : Dataset :=
  ⟨fun name => if name = "LCZ_2020" then some demoArr else none⟩

/-- A full-Grid-shaped array of zeros (2767 rows of 6435 columns). -/
def gridArr : List (List ℚ) :=
  List.replicate GRID_HEIGHT (List.replicate GRID_WIDTH 0)

/-- A dataset whose single variable has exactly the Grid shape. -/
def gridDS : Dataset :=
  ⟨fun name => if name = "LCZ_2020" then some gridArr else none⟩

/-- An axis-aligned box wholly in the Southern Hemisphere, outside the Grid. -/
def southGeom : Geometry :=
  { seq := .exterior [(10, -30), (20, -30), (20, -20), (10, -20), (10, -30)],
    minx := 10, miny := -30, maxx := 20, maxy := -20 }

lemma clampIndex_nonneg (v hi : ℚ) : 0 ≤ clampIndex v hi :=
  Int.floor_nonneg.mpr (le_max_left 0 _)

lemma clampIndex_le (v : ℚ) (n : ℕ) : clampIndex v (n : ℚ) ≤ (n : ℤ) := by
  have h : max 0 (min v (n : ℚ)) ≤ (n : ℚ) :=
    max_le (by positivity) (min_le_right _ _)
  simpa [clampIndex] using (Int.floor_mono h).trans_eq (Int.floor_natCast n)

lemma clampIndex_mono {v v' : ℚ} (hi : ℚ) (h : v ≤ v') :
    clampIndex v hi ≤ clampIndex v' hi :=
  Int.floor_mono (max_le_max le_rfl (min_le_min h le_rfl))

lemma clampIndex_eq_zero {v : ℚ} (hi : ℚ) (hv : v ≤ 0) : clampIndex v hi = 0 := by
  have h : max 0 (min v hi) = 0 := max_eq_left ((min_le_left v hi).trans hv)
  simp [clampIndex, h]

lemma clampIndex_eq_top {v : ℚ} (n : ℕ) (hv : (n : ℚ) ≤ v) :
    clampIndex v (n : ℚ) = (n : ℤ) := by
  have h1 : min v (n : ℚ) = (n : ℚ) := min_eq_right hv
  have h2 : max 0 ((n : ℚ)) = (n : ℚ) := max_eq_right (by positivity)
  simp [clampIndex, h1, h2]

lemma clampIndex_eq_of {v hi : ℚ} {n : ℤ} (h0 : 0 ≤ n) (hn : (n : ℚ) ≤ v)
    (hn1 : v < n + 1) (hhi : v ≤ hi) : clampIndex v hi = n := by
  have hmax : max 0 (min v hi) = v := by
    rw [min_eq_left hhi]
    exact max_eq_right ((by exact_mod_cast h0 : (0 : ℚ) ≤ (n : ℚ)).trans hn)
  rw [clampIndex, hmax]
  exact Int.floor_eq_iff.mpr ⟨hn, hn1⟩

lemma pixelWindow_eq (gin : GeomInput) (b : ℚ) :
    pixelWindow gin b =
      (clampIndex (lonlat_to_pixel ((unwrapGeom gin).minx - b / 111)
          ((unwrapGeom gin).maxy + b / 111)).1 ((GRID_WIDTH - 1 : ℕ) : ℚ),
       clampIndex (lonlat_to_pixel ((unwrapGeom gin).maxx + b / 111)
          ((unwrapGeom gin).miny - b / 111)).1 ((GRID_WIDTH - 1 : ℕ) : ℚ),
       clampIndex (lonlat_to_pixel ((unwrapGeom gin).minx - b / 111)
          ((unwrapGeom gin).maxy + b / 111)).2 ((GRID_HEIGHT - 1 : ℕ) : ℚ),
       clampIndex (lonlat_to_pixel ((unwrapGeom gin).maxx + b / 111)
          ((unwrapGeom gin).miny - b / 111)).2 ((GRID_HEIGHT - 1 : ℕ) : ℚ)) := rfl

lemma extract_of_degenerate {gin : GeomInput} {b : ℚ} (ds : Dataset) (v : String)
    (h : (pixelWindow gin b).2.1 ≤ (pixelWindow gin b).1 ∨
      (pixelWindow gin b).2.2.2 ≤ (pixelWindow gin b).2.2.1) :
    extract_raster_for_geometry ds v gin b = (none, none, none) := by
  simp only [extract_raster_for_geometry]
  rw [if_pos h]

lemma extract_of_absent {ds : Dataset} {v : String} (gin : GeomInput) (b : ℚ)
    (h : ds.data_vars v = none) :
    extract_raster_for_geometry ds v gin b = (none, none, none) := by
  simp [extract_raster_for_geometry, h]

lemma extract_of_success {ds : Dataset} {v : String} {gin : GeomInput} {b : ℚ}
    {arr : List (List ℚ)}
    (hnd : ¬((pixelWindow gin b).2.1 ≤ (pixelWindow gin b).1 ∨
      (pixelWindow gin b).2.2.2 ≤ (pixelWindow gin b).2.2.1))
    (harr : ds.data_vars v = some arr) :
    extract_raster_for_geometry ds v gin b =
      (some (iselSlice arr (pixelWindow gin b).1 (pixelWindow gin b).2.1
        (pixelWindow gin b).2.2.1 (pixelWindow gin b).2.2.2),
       some (pixelWindow gin b), some (unwrapGeom gin)) := by
  simp [extract_raster_for_geometry, hnd, harr]

lemma window_of_extract {ds : Dataset} {v : String} {gin : GeomInput} {b : ℚ}
    {w : ℤ × ℤ × ℤ × ℤ}
    (hw : (extract_raster_for_geometry ds v gin b).2.1 = some w) :
    w = pixelWindow gin b ∧
    (pixelWindow gin b).1 < (pixelWindow gin b).2.1 ∧
    (pixelWindow gin b).2.2.1 < (pixelWindow gin b).2.2.2 := by
  by_cases hd : (pixelWindow gin b).2.1 ≤ (pixelWindow gin b).1 ∨
      (pixelWindow gin b).2.2.2 ≤ (pixelWindow gin b).2.2.1
  · rw [extract_of_degenerate ds v hd] at hw
    simp at hw
  · push_neg at hd
    cases harr : ds.data_vars v with
    | none => rw [extract_of_absent gin b harr] at hw; simp at hw
    | some arr =>
        rw [extract_of_success (by push_neg; exact hd) harr] at hw
        simp at hw
        exact ⟨hw.symm, hd.1, hd.2⟩

lemma pixelWindow_bounds (gin : GeomInput) (b : ℚ) :
    0 ≤ (pixelWindow gin b).1 ∧ (pixelWindow gin b).1 ≤ 6434 ∧
    0 ≤ (pixelWindow gin b).2.1 ∧ (pixelWindow gin b).2.1 ≤ 6434 ∧
    0 ≤ (pixelWindow gin b).2.2.1 ∧ (pixelWindow gin b).2.2.1 ≤ 2766 ∧
    0 ≤ (pixelWindow gin b).2.2.2 ∧ (pixelWindow gin b).2.2.2 ≤ 2766 := by
  rw [pixelWindow_eq]
  have hw : ((GRID_WIDTH - 1 : ℕ) : ℤ) = 6434 := by norm_num [GRID_WIDTH]
  have hh : ((GRID_HEIGHT - 1 : ℕ) : ℤ) = 2766 := by norm_num [GRID_HEIGHT]
  refine ⟨clampIndex_nonneg _ _, hw ▸ clampIndex_le _ _,
    clampIndex_nonneg _ _, hw ▸ clampIndex_le _ _,
    clampIndex_nonneg _ _, hh ▸ clampIndex_le _ _,
    clampIndex_nonneg _ _, hh ▸ clampIndex_le _ _⟩

lemma pixelWindow_demo5 :
    pixelWindow (GeomInput.plain demoGeom) 5 = (1358, 1477, 1697, 1760) := by
  rw [pixelWindow_eq]
  simp only [unwrapGeom, demoGeom, lonlat_to_pixel, CONUS_LON_MIN, CONUS_LON_MAX,
    CONUS_LAT_MIN, CONUS_LAT_MAX, GRID_WIDTH, GRID_HEIGHT, Prod.mk.injEq]
  refine ⟨?_, ?_, ?_, ?_⟩ <;>
    · apply clampIndex_eq_of <;> norm_num

lemma pixelWindow_demo10 :
    pixelWindow (GeomInput.plain demoGeom) 10 = (1353, 1482, 1693, 1765) := by
  rw [pixelWindow_eq]
  simp only [unwrapGeom, demoGeom, lonlat_to_pixel, CONUS_LON_MIN, CONUS_LON_MAX,
    CONUS_LAT_MIN, CONUS_LAT_MAX, GRID_WIDTH, GRID_HEIGHT, Prod.mk.injEq]
  refine ⟨?_, ?_, ?_, ?_⟩ <;>
    · apply clampIndex_eq_of <;> norm_num

lemma extract_demo5 :
    extract_raster_for_geometry demoDS "LCZ_2020" (GeomInput.plain demoGeom) 5 =
      (some (iselSlice demoArr 1358 1477 1697 1760),
       some (1358, 1477, 1697, 1760), some demoGeom) := by
  have hnd : ¬((pixelWindow (GeomInput.plain demoGeom) 5).2.1 ≤
      (pixelWindow (GeomInput.plain demoGeom) 5).1 ∨
      (pixelWindow (GeomInput.plain demoGeom) 5).2.2.2 ≤
      (pixelWindow (GeomInput.plain demoGeom) 5).2.2.1) := by
    rw [pixelWindow_demo5]; norm_num
  have harr : demoDS.data_vars "LCZ_2020" = some demoArr := rfl
  have h := extract_of_success hnd harr
  rw [pixelWindow_demo5] at h
  simpa [unwrapGeom] using h

lemma extract_demo10 :
    extract_raster_for_geometry demoDS "LCZ_2020" (GeomInput.plain demoGeom) 10 =
      (some (iselSlice demoArr 1353 1482 1693 1765),
       some (1353, 1482, 1693, 1765), some demoGeom) := by
  have hnd : ¬((pixelWindow (GeomInput.plain demoGeom) 10).2.1 ≤
      (pixelWindow (GeomInput.plain demoGeom) 10).1 ∨
      (pixelWindow (GeomInput.plain demoGeom) 10).2.2.2 ≤
      (pixelWindow (GeomInput.plain demoGeom) 10).2.2.1) := by
    rw [pixelWindow_demo10]; norm_num
  have harr : demoDS.data_vars "LCZ_2020" = some demoArr := rfl
  have h := extract_of_success hnd harr
  rw [pixelWindow_demo10] at h
  simpa [unwrapGeom] using h

lemma extract_grid5 :
    extract_raster_for_geometry gridDS "LCZ_2020" (GeomInput.plain demoGeom) 5 =
      (some (iselSlice gridArr 1358 1477 1697 1760),
       some (1358, 1477, 1697, 1760), some demoGeom) := by
  have hnd : ¬((pixelWindow (GeomInput.plain demoGeom) 5).2.1 ≤
      (pixelWindow (GeomInput.plain demoGeom) 5).1 ∨
      (pixelWindow (GeomInput.plain demoGeom) 5).2.2.2 ≤
      (pixelWindow (GeomInput.plain demoGeom) 5).2.2.1) := by
    rw [pixelWindow_demo5]; norm_num
  have harr : gridDS.data_vars "LCZ_2020" = some gridArr := rfl
  have h := extract_of_success hnd harr
  rw [pixelWindow_demo5] at h
  simpa [unwrapGeom] using h

lemma pixelWindow_mono (gin : GeomInput) {b1 b2 : ℚ} (hb : b1 ≤ b2) :
    (pixelWindow gin b2).1 ≤ (pixelWindow gin b1).1 ∧
    (pixelWindow gin b1).2.1 ≤ (pixelWindow gin b2).2.1 ∧
    (pixelWindow gin b2).2.2.1 ≤ (pixelWindow gin b1).2.2.1 ∧
    (pixelWindow gin b1).2.2.2 ≤ (pixelWindow gin b2).2.2.2 := by
  have hdiv : b1 / 111 ≤ b2 / 111 := (div_le_div_iff_of_pos_right (by norm_num)).mpr hb
  rw [pixelWindow_eq, pixelWindow_eq]
  dsimp only [lonlat_to_pixel]
  have hden : (0 : ℚ) < CONUS_LON_MAX - CONUS_LON_MIN := by
    norm_num [CONUS_LON_MAX, CONUS_LON_MIN]
  have hden2 : (0 : ℚ) < CONUS_LAT_MAX - CONUS_LAT_MIN := by
    norm_num [CONUS_LAT_MAX, CONUS_LAT_MIN]
  have hwpos : (0 : ℚ) ≤ (GRID_WIDTH : ℚ) := by positivity
  have hhpos : (0 : ℚ) ≤ (GRID_HEIGHT : ℚ) := by positivity
  refine ⟨clampIndex_mono _ ?_, clampIndex_mono _ ?_,
    clampIndex_mono _ ?_, clampIndex_mono _ ?_⟩
  · exact mul_le_mul_of_nonneg_right
      ((div_le_div_iff_of_pos_right hden).mpr (by linarith)) hwpos
  · exact mul_le_mul_of_nonneg_right
      ((div_le_div_iff_of_pos_right hden).mpr (by linarith)) hwpos
  · exact mul_le_mul_of_nonneg_right
      ((div_le_div_iff_of_pos_right hden2).mpr (by linarith)) hhpos
  · exact mul_le_mul_of_nonneg_right
      ((div_le_div_iff_of_pos_right hden2).mpr (by linarith)) hhpos

lemma foldl_append_eq_map {α β : Type} (f : α → β) (l : List α)
    (acc : List β) :
    l.foldl (fun out c => out ++ [f c]) acc = acc ++ l.map f := by
  induction l generalizing acc with
  | nil => simp
  | cons a t ih => simp [ih]

/-- C1: for every dataset, variable name, geometry and buffer, when
`extract_raster_for_geometry` returns a non-null pixel window
`(x_min, x_max, y_min, y_max)`, the window satisfies
`0 ≤ x_min < x_max ≤ GRID_WIDTH` and `0 ≤ y_min < y_max ≤ GRID_HEIGHT`
(proved for all geometries and buffers, which covers the claim's case of a
bounding box intersecting the Grid extent and `buffer_km ≥ 0`). -/
theorem extract_window_valid (ds : Dataset) (variable_name : String)
    (geometry : GeomInput) (buffer_km : ℚ) (x_min x_max y_min y_max : ℤ)
    (hw : (extract_raster_for_geometry ds variable_name geometry buffer_km).2.1 =
      some (x_min, x_max, y_min, y_max)) :
    0 ≤ x_min ∧ x_min < x_max ∧ x_max ≤ (GRID_WIDTH : ℤ) ∧
    0 ≤ y_min ∧ y_min < y_max ∧ y_max ≤ (GRID_HEIGHT : ℤ) := by
  obtain ⟨hweq, hx, hy⟩ := window_of_extract hw
  have hb := pixelWindow_bounds geometry buffer_km
  rw [← hweq] at hb hx hy
  dsimp only at hb hx hy
  have hW : (GRID_WIDTH : ℤ) = 6435 := by norm_num [GRID_WIDTH]
  have hH : (GRID_HEIGHT : ℤ) = 2767 := by norm_num [GRID_HEIGHT]
  obtain ⟨hb1, hb2, hb3, hb4, hb5, hb6, hb7, hb8⟩ := hb
  refine ⟨hb1, hx, by omega, hb5, hy, by omega⟩

/-- C1 witness: the scenario box with buffer 5 produces the window
`(1358, 1477, 1697, 1760)`, which satisfies the bounds. -/
theorem extract_window_valid_witness :
    0 ≤ (1358 : ℤ) ∧ (1358 : ℤ) < 1477 ∧ (1477 : ℤ) ≤ (GRID_WIDTH : ℤ) ∧
    0 ≤ (1697 : ℤ) ∧ (1697 : ℤ) < 1760 ∧ (1760 : ℤ) ≤ (GRID_HEIGHT : ℤ) :=
  extract_window_valid demoDS "LCZ_2020" (GeomInput.plain demoGeom) 5
    1358 1477 1697 1760 (by rw [extract_demo5])

/-- C2: `extract_raster_for_geometry` returns the all-null triple exactly
when the variable is absent or the clamped pixel window is degenerate
(`x_max ≤ x_min` or `y_max ≤ y_min`), and in every other case all three
components of the result are non-null — no partially-filled result. -/
theorem extract_null_characterization (ds : Dataset) (v : String)
    (gin : GeomInput) (b : ℚ) :
    (extract_raster_for_geometry ds v gin b = (none, none, none) ↔
      (ds.data_vars v = none ∨
        (pixelWindow gin b).2.1 ≤ (pixelWindow gin b).1 ∨
        (pixelWindow gin b).2.2.2 ≤ (pixelWindow gin b).2.2.1)) ∧
    (extract_raster_for_geometry ds v gin b = (none, none, none) ∨
      ((extract_raster_for_geometry ds v gin b).1.isSome ∧
       (extract_raster_for_geometry ds v gin b).2.1.isSome ∧
       (extract_raster_for_geometry ds v gin b).2.2.isSome)) := by
  by_cases hd : (pixelWindow gin b).2.1 ≤ (pixelWindow gin b).1 ∨
      (pixelWindow gin b).2.2.2 ≤ (pixelWindow gin b).2.2.1
  · exact ⟨iff_of_true (extract_of_degenerate ds v hd) (Or.inr hd),
      Or.inl (extract_of_degenerate ds v hd)⟩
  · cases harr : ds.data_vars v with
    | none =>
        exact ⟨iff_of_true (extract_of_absent gin b harr) (Or.inl rfl),
          Or.inl (extract_of_absent gin b harr)⟩
    | some arr =>
        have hne : extract_raster_for_geometry ds v gin b ≠ (none, none, none) := by
          rw [extract_of_success hd harr]
          simp
        refine ⟨iff_of_false hne ?_, Or.inr ?_⟩
        · rintro (h | h)
          · exact Option.noConfusion h
          · exact hd h
        · rw [extract_of_success hd harr]
          simp

/-- C4: composing the coordinate transforms is the identity on the Grid
extent, exactly over rational arithmetic:
`pixel_to_lonlat (lonlat_to_pixel lon lat) = (lon, lat)`. -/
theorem lonlat_pixel_roundtrip (lon lat : ℚ)
    (h1 : CONUS_LON_MIN ≤ lon) (h2 : lon ≤ CONUS_LON_MAX)
    (h3 : CONUS_LAT_MIN ≤ lat) (h4 : lat ≤ CONUS_LAT_MAX) :
    pixel_to_lonlat (lonlat_to_pixel lon lat).1 (lonlat_to_pixel lon lat).2 =
      (lon, lat) := by
  simp only [lonlat_to_pixel, pixel_to_lonlat, CONUS_LON_MIN, CONUS_LON_MAX,
    CONUS_LAT_MIN, CONUS_LAT_MAX, GRID_WIDTH, GRID_HEIGHT, Prod.mk.injEq]
  constructor <;> · push_cast; ring

/-- C4 witness: the round trip at `(lon, lat) = (-100, 30)`. -/
theorem lonlat_pixel_roundtrip_witness :
    pixel_to_lonlat (lonlat_to_pixel (-100) 30).1 (lonlat_to_pixel (-100) 30).2 =
      (-100, 30) :=
  lonlat_pixel_roundtrip (-100) 30 (by norm_num [CONUS_LON_MIN])
    (by norm_num [CONUS_LON_MAX]) (by norm_num [CONUS_LAT_MIN])
    (by norm_num [CONUS_LAT_MAX])

/-- C3: when the named variable is a 2-D array of exactly the Grid shape
(`GRID_HEIGHT` rows of `GRID_WIDTH` columns) and extraction returns a
pixel window `(x_min, x_max, y_min, y_max)`, the returned array has shape
`(y_max - y_min, x_max - x_min)`. -/
theorem extract_shape_consistent (ds : Dataset) (v : String) (gin : GeomInput)
    (b : ℚ) (arr : List (List ℚ))
    (harr : ds.data_vars v = some arr)
    (hlen : arr.length = GRID_HEIGHT)
    (hrowlen : ∀ row ∈ arr, row.length = GRID_WIDTH)
    (x_min x_max y_min y_max : ℤ)
    (hw : (extract_raster_for_geometry ds v gin b).2.1 =
      some (x_min, x_max, y_min, y_max)) :
    ∃ d, (extract_raster_for_geometry ds v gin b).1 = some d ∧
      (d.length : ℤ) = y_max - y_min ∧
      ∀ row ∈ d, (row.length : ℤ) = x_max - x_min := by
  obtain ⟨hweq, hx, hy⟩ := window_of_extract hw
  have hb := pixelWindow_bounds gin b
  rw [← hweq] at hb hx hy
  dsimp only at hb hx hy
  obtain ⟨hb1, hb2, hb3, hb4, hb5, hb6, hb7, hb8⟩ := hb
  have hnd : ¬((pixelWindow gin b).2.1 ≤ (pixelWindow gin b).1 ∨
      (pixelWindow gin b).2.2.2 ≤ (pixelWindow gin b).2.2.1) := by
    rw [← hweq]
    dsimp only
    omega
  norm_num [GRID_HEIGHT] at hlen
  refine ⟨iselSlice arr x_min x_max y_min y_max, ?_, ?_, ?_⟩
  · rw [extract_of_success hnd harr, ← hweq]
  · simp only [iselSlice, List.length_map, List.length_take, List.length_drop,
      hlen]
    omega
  · intro row hmem
    simp only [iselSlice, List.mem_map] at hmem
    obtain ⟨r, hr, rfl⟩ := hmem
    have hrarr : r ∈ arr := List.drop_subset _ _ (List.take_subset _ _ hr)
    have hrl := hrowlen r hrarr
    norm_num [GRID_WIDTH] at hrl
    simp only [List.length_take, List.length_drop, hrl]
    omega

/-- C3 witness: on a Grid-shaped zero array, the scenario window
`(1358, 1477, 1697, 1760)` yields an array of 63 rows of 119 columns. -/
theorem extract_shape_consistent_witness :
    ∃ d, (extract_raster_for_geometry gridDS "LCZ_2020"
        (GeomInput.plain demoGeom) 5).1 = some d ∧
      (d.length : ℤ) = 1760 - 1697 ∧
      ∀ row ∈ d, (row.length : ℤ) = 1477 - 1358 :=
  extract_shape_consistent gridDS "LCZ_2020" (GeomInput.plain demoGeom) 5
    gridArr rfl (by simp [gridArr])
    (by
      intro row hrow
      simp only [gridArr, List.mem_replicate] at hrow
      simp [hrow.2])
    1358 1477 1697 1760 (by rw [extract_grid5])

/-- C5: for a fixed geometry, growing the buffer never shrinks the pixel
window: with buffers `0 ≤ b1 ≤ b2` and both extractions non-null,
`x_min2 ≤ x_min1`, `x_max1 ≤ x_max2`, `y_min2 ≤ y_min1`, `y_max1 ≤ y_max2`. -/
theorem extract_window_monotone (ds : Dataset) (v : String) (gin : GeomInput)
    (b1 b2 : ℚ) (hb0 : 0 ≤ b1) (hb : b1 ≤ b2)
    (x_min1 x_max1 y_min1 y_max1 x_min2 x_max2 y_min2 y_max2 : ℤ)
    (h1 : (extract_raster_for_geometry ds v gin b1).2.1 =
      some (x_min1, x_max1, y_min1, y_max1))
    (h2 : (extract_raster_for_geometry ds v gin b2).2.1 =
      some (x_min2, x_max2, y_min2, y_max2)) :
    x_min2 ≤ x_min1 ∧ x_max1 ≤ x_max2 ∧ y_min2 ≤ y_min1 ∧ y_max1 ≤ y_max2 := by
  obtain ⟨hw1, -, -⟩ := window_of_extract h1
  obtain ⟨hw2, -, -⟩ := window_of_extract h2
  have hm := pixelWindow_mono gin hb
  rw [← hw1, ← hw2] at hm
  exact hm

/-- C5 witness: buffers 5 and 10 on the scenario box give nested windows
`(1358, 1477, 1697, 1760)` and `(1353, 1482, 1693, 1765)`. -/
theorem extract_window_monotone_witness :
    (1353 : ℤ) ≤ 1358 ∧ (1477 : ℤ) ≤ 1482 ∧ (1693 : ℤ) ≤ 1697 ∧
    (1760 : ℤ) ≤ 1765 :=
  extract_window_monotone demoDS "LCZ_2020" (GeomInput.plain demoGeom) 5 10
    (by norm_num) (by norm_num) 1358 1477 1697 1760 1353 1482 1693 1765
    (by rw [extract_demo5]) (by rw [extract_demo10])

/-- C6: a geometry whose bounding box lies entirely outside the Grid extent
(strictly west, east, south or north of it), queried with `buffer_km = 0`,
yields the all-null result. -/
theorem extract_outside_null (ds : Dataset) (v : String) (g : Geometry)
    (hout : g.maxx < CONUS_LON_MIN ∨ CONUS_LON_MAX < g.minx ∨
      g.maxy < CONUS_LAT_MIN ∨ CONUS_LAT_MAX < g.miny) :
    extract_raster_for_geometry ds v (GeomInput.plain g) 0 =
      (none, none, none) := by
  apply extract_of_degenerate
  rw [pixelWindow_eq]
  dsimp only [unwrapGeom, lonlat_to_pixel]
  have hC1 : CONUS_LON_MIN = -125 := rfl
  have hC2 : CONUS_LON_MAX = -66 := rfl
  have hC3 : CONUS_LAT_MIN = 24 := rfl
  have hC4 : CONUS_LAT_MAX = 50 := rfl
  have hWq : (GRID_WIDTH : ℚ) = 6435 := by norm_num [GRID_WIDTH]
  have hHq : (GRID_HEIGHT : ℚ) = 2767 := by norm_num [GRID_HEIGHT]
  have hW1 : ((GRID_WIDTH - 1 : ℕ) : ℚ) = 6434 := by norm_num [GRID_WIDTH]
  have hH1 : ((GRID_HEIGHT - 1 : ℕ) : ℚ) = 2766 := by norm_num [GRID_HEIGHT]
  rcases hout with h | h | h | h
  · rw [hC1] at h
    left
    refine le_trans (le_of_eq (clampIndex_eq_zero _ ?_)) (clampIndex_nonneg _ _)
    rw [hC1, hC2, hWq]
    linarith
  · rw [hC2] at h
    left
    refine le_trans (clampIndex_le _ (GRID_WIDTH - 1))
      (le_of_eq (clampIndex_eq_top (GRID_WIDTH - 1) ?_).symm)
    rw [hC1, hC2, hWq, hW1]
    linarith
  · rw [hC3] at h
    right
    refine le_trans (clampIndex_le _ (GRID_HEIGHT - 1))
      (le_of_eq (clampIndex_eq_top (GRID_HEIGHT - 1) ?_).symm)
    rw [hC3, hC4, hHq, hH1]
    linarith
  · rw [hC4] at h
    right
    refine le_trans (le_of_eq (clampIndex_eq_zero _ ?_)) (clampIndex_nonneg _ _)
    rw [hC3, hC4, hHq]
    linarith

/-- C6 witness: a box in the Southern Hemisphere (lat in [-30, -20]) with
buffer 0 returns the all-null triple. -/
theorem extract_outside_null_witness :
    extract_raster_for_geometry demoDS "LCZ_2020" (GeomInput.plain southGeom) 0 =
      (none, none, none) :=
  extract_outside_null demoDS "LCZ_2020" southGeom
    (Or.inr (Or.inr (Or.inl (by norm_num [southGeom, CONUS_LAT_MIN]))))

/-- C7 counterexample: for the Grid over lon [-125, -66], lat [24, 50] at
6435×2767, the 1°×1° box lon [-112.5, -111.5], lat [33.5, 34.0] with
`buffer_km = 5` and variable `LCZ_2020` present gives the pixel window
`(1358, 1477, 1697, 1760)`, whose width `x_max - x_min` is `119` pixels.
Reading "roughly 65" as within ±20% (between 52 and 78), 119 is not roughly
65, so the window is not roughly 65 pixels wide (its height, 63, is). -/
theorem scenario_window_not_65_wide :
    (extract_raster_for_geometry demoDS "LCZ_2020"
        (GeomInput.plain demoGeom) 5).2.1 = some (1358, 1477, 1697, 1760) ∧
    (1477 - 1358 : ℤ) = 119 ∧ ¬(52 ≤ (119 : ℤ) ∧ (119 : ℤ) ≤ 78) :=
  ⟨by rw [extract_demo5], by norm_num, by norm_num⟩

/-- C7 amended: the scenario query returns a non-null pixel window
`(1358, 1477, 1697, 1760)` with `x_min < x_max` and `y_min < y_max`; the
window is roughly 65 pixels tall (height `y_max - y_min = 63`) and about
119 pixels wide (width `x_max - x_min = 119`). -/
theorem scenario_window_dimensions :
    (extract_raster_for_geometry demoDS "LCZ_2020"
        (GeomInput.plain demoGeom) 5).2.1 = some (1358, 1477, 1697, 1760) ∧
    (1358 : ℤ) < 1477 ∧ (1697 : ℤ) < 1760 ∧
    (1760 - 1697 : ℤ) = 63 ∧ (1477 - 1358 : ℤ) = 119 :=
  ⟨by rw [extract_demo5], by norm_num, by norm_num, by norm_num, by norm_num⟩

/-- C8: `geometry_to_pixel_coords` returns exactly the geometry's vertex
sequence (exterior ring for polygons, coordinate sequence for lines and
points, empty when neither exists — never an error) mapped in order through
`lonlat_to_pixel` and translated by `-(x_offset, y_offset)`. -/
theorem geometry_to_pixel_coords_spec (g : Geometry) (x_offset y_offset : ℚ) :
    geometry_to_pixel_coords g x_offset y_offset =
      (vertexSeq g).map (fun c =>
        ((lonlat_to_pixel c.1 c.2).1 - x_offset,
         (lonlat_to_pixel c.1 c.2).2 - y_offset)) := by
  cases hseq : g.seq with
  | exterior ring =>
      simp [geometry_to_pixel_coords, coordsOfGeometry, vertexSeq, hseq,
        foldl_append_eq_map]
  | simple cs =>
      simp [geometry_to_pixel_coords, coordsOfGeometry, vertexSeq, hseq,
        foldl_append_eq_map]
  | unsupported =>
      simp [geometry_to_pixel_coords, coordsOfGeometry, vertexSeq, hseq]

/-- C9: the embedding of `extract_raster_for_geometry` is a pure function —
the source performs no writes to the dataset or the geometry, only reads
`geom.bounds` and the named array — and on success the third component of
the result is the original, un-buffered input geometry itself (the
`buffer_deg` expansion touches only the copied bound values, never the
geometry). -/
theorem extract_returns_original_geometry (ds : Dataset) (v : String)
    (g : Geometry) (b : ℚ) :
    (extract_raster_for_geometry ds v (GeomInput.plain g) b).2.2 = none ∨
    (extract_raster_for_geometry ds v (GeomInput.plain g) b).2.2 = some g := by
  by_cases hd : (pixelWindow (GeomInput.plain g) b).2.1 ≤
      (pixelWindow (GeomInput.plain g) b).1 ∨
      (pixelWindow (GeomInput.plain g) b).2.2.2 ≤
      (pixelWindow (GeomInput.plain g) b).2.2.1
  · left
    rw [extract_of_degenerate ds v hd]
  · cases harr : ds.data_vars v with
    | none =>
        left
        rw [extract_of_absent _ _ harr]
    | some arr =>
        right
        rw [extract_of_success hd harr]
        rfl

/-- C10: whenever `extract_raster_for_geometry` returns a pixel window, all
four indices are clamped into `[0, GRID_WIDTH - 1]` and
`[0, GRID_HEIGHT - 1]`, so `x_max ≤ GRID_WIDTH - 1 = 6434` and
`y_max ≤ GRID_HEIGHT - 1 = 2766`; consequently the easternmost pixel column
(index `GRID_WIDTH - 1`) and the southernmost pixel row (index
`GRID_HEIGHT - 1`) are never included in the half-open extracted window. -/
theorem extract_window_clamped (ds : Dataset) (variable_name : String)
    (geometry : GeomInput) (buffer_km : ℚ) (x_min x_max y_min y_max : ℤ)
    (hw : (extract_raster_for_geometry ds variable_name geometry buffer_km).2.1 =
      some (x_min, x_max, y_min, y_max)) :
    0 ≤ x_min ∧ x_max ≤ (GRID_WIDTH : ℤ) - 1 ∧
    0 ≤ y_min ∧ y_max ≤ (GRID_HEIGHT : ℤ) - 1 ∧
    (∀ i : ℤ, x_min ≤ i → i < x_max → i < (GRID_WIDTH : ℤ) - 1) ∧
    (∀ j : ℤ, y_min ≤ j → j < y_max → j < (GRID_HEIGHT : ℤ) - 1) := by
  obtain ⟨hweq, hx, hy⟩ := window_of_extract hw
  have hb := pixelWindow_bounds geometry buffer_km
  rw [← hweq] at hb hx hy
  dsimp only at hb hx hy
  obtain ⟨hb1, hb2, hb3, hb4, hb5, hb6, hb7, hb8⟩ := hb
  have hW : (GRID_WIDTH : ℤ) = 6435 := by norm_num [GRID_WIDTH]
  have hH : (GRID_HEIGHT : ℤ) = 2767 := by norm_num [GRID_HEIGHT]
  exact ⟨hb1, by omega, hb5, by omega,
    fun i hi1 hi2 => by omega, fun j hj1 hj2 => by omega⟩

/-- C10 witness: the scenario window `(1358, 1477, 1697, 1760)` stays below
`GRID_WIDTH - 1` and `GRID_HEIGHT - 1`. -/
theorem extract_window_clamped_witness :
    0 ≤ (1358 : ℤ) ∧ (1477 : ℤ) ≤ (GRID_WIDTH : ℤ) - 1 ∧
    0 ≤ (1697 : ℤ) ∧ (1760 : ℤ) ≤ (GRID_HEIGHT : ℤ) - 1 ∧
    (∀ i : ℤ, (1358 : ℤ) ≤ i → i < 1477 → i < (GRID_WIDTH : ℤ) - 1) ∧
    (∀ j : ℤ, (1697 : ℤ) ≤ j → j < 1760 → j < (GRID_HEIGHT : ℤ) - 1) :=
  extract_window_clamped demoDS "LCZ_2020" (GeomInput.plain demoGeom) 5
    1358 1477 1697 1760 (by rw [extract_demo5])

end RasterUtils
